import Mathlib

/-!
Verification of the caption-generation pipeline of the Albumy LLM service
(`albumy/services/llm_service.py`) together with the sentinel-value check of
`check_photos.py`.

The Python module is embedded shallowly.  All external nondeterminism — the
`GEMINI_API_KEY` environment variable, construction of the Gemini client,
image decoding, the model call and the file system — is packaged into an
`Env` record of oracles.  Each Python function is split into the body of its
`try` block (an `Except`-valued function, where `Except.error` carries the
trace of side effects performed before the exception) and the full function
(the body with the `except` handler applied).  The trace counts model-call
attempts and file-open attempts so that "no network call" / "file never
touched" properties are expressible.
-/

namespace LlmService

/-- Python `str.isspace` characters, the set stripped by `str.strip()`:
ASCII whitespace, the C1 separators, and the Unicode space separators. -/
def isPySpace (c : Char) : Bool :=
  let n := c.toNat
  (9 ≤ n && n ≤ 13) || (28 ≤ n && n ≤ 31) || n == 32 || n == 133 || n == 160 ||
  n == 0x1680 || (0x2000 ≤ n && n ≤ 0x200a) || n == 0x2028 || n == 0x2029 ||
  n == 0x202f || n == 0x205f || n == 0x3000

/-- Python `s.strip()`: remove leading and trailing whitespace. -/
def pyStrip (s : String) : String :=
  String.mk (((s.data.dropWhile isPySpace).reverse.dropWhile isPySpace).reverse)

/-- Side effects an operation has performed: attempts to call the model
transport (`generate_content`) and attempts to open a file. -/
structure Trace where
  modelCalls : Nat
  fileOpens : Nat
  deriving DecidableEq, Repr

/-- The external world as seen by `llm_service.py`:
* `apiKey` — result of `os.getenv('GEMINI_API_KEY')`;
* `clientOk` — whether `genai.Client(...)` constructs without raising;
* `decodes` — whether `Image.open(io.BytesIO(b))` succeeds on bytes `b`;
* `model` — outcome of `generate_content` plus the `.text` access on bytes
  `b` (`Except.error` for a raised exception or unusable `.text`);
* `fs` — the file system: `some b` when the file at a path can be opened
  and read to bytes `b`, `none` when opening or reading raises. -/
structure Env where
  apiKey : Option String
  clientOk : Bool
  decodes : List Nat → Bool
  model : List Nat → Except Unit String
  fs : String → Option (List Nat)

/-- Python truthiness of the key: `if not gemini_api_key` is taken when the
variable is unset or set to the empty string. -/
def keyMissing (e : Env) : Bool :=
  match e.apiKey with
  | none => true
  | some s => s == ""

/-- `_get_gemini_client`: `None` when the key is missing or the client
constructor raises (its own `try` absorbs that), otherwise a client. -/
def getGeminiClient (e : Env) : Option Unit :=
  if keyMissing e then none
  else if e.clientOk then some () else none

/-- Fallback constant of `generate_alt_text` and its path variant. -/
def altFallback : String := "Image description not available"

/-- Fallback constant of `generate_sassy_description_from_file`; the source
literal ends in the four code points U+00F0 U+0178 U+201C U+00B8 (a
mojibake-encoded camera emoji), reproduced here byte-for-byte. -/
def sassyFallback : String := "Another day, another photo! ðŸ“¸"

/-- Shared post-processing of the model text in `generate_alt_text` and
`generate_sassy_description_from_file`: strip, truncate to 497 characters
plus `"..."` when longer than 500, and substitute the fallback when the
result is the empty string (Python truthiness of `alt_text`/`description`). -/
def capAndDefault (fb : String) (raw : String) : String :=
  let t := pyStrip raw
  let t := if t.length > 500 then String.mk (t.data.take 497) ++ "..." else t
  if t = "" then fb else t

/-- Body of the `try` block of `get_llm_response`. -/
def get_llm_response_body (e : Env) (image_data : List Nat) :
    Except Trace (String × Trace) :=
  match getGeminiClient e with
  | none => .ok ("", ⟨0, 0⟩)
  | some _ =>
    if e.decodes image_data then
      match e.model image_data with
      | .ok t => .ok (pyStrip t, ⟨1, 0⟩)
      | .error _ => .error ⟨1, 0⟩
    else .error ⟨0, 0⟩

/-- `get_llm_response(image_data)`: the body with its `except` handler,
which returns the empty string. -/
def get_llm_response (e : Env) (image_data : List Nat) : String × Trace :=
  match get_llm_response_body e image_data with
  | .ok r => r
  | .error tr => ("", tr)

/-- `get_llm_response` seen from the caller as a possibly-raising
computation: the handler turns every internal exception into a normal
return, so this is the function's observable behaviour. -/
def get_llm_responseE (e : Env) (image_data : List Nat) :
    Except Trace (String × Trace) :=
  match get_llm_response_body e image_data with
  | .ok r => .ok r
  | .error tr => .ok ("", tr)

/-- Body of the `try` block of `generate_alt_text`. -/
def generate_alt_text_body (e : Env) (image_data : List Nat) :
    Except Trace (String × Trace) :=
  match getGeminiClient e with
  | none => .ok (altFallback, ⟨0, 0⟩)
  | some _ =>
    if e.decodes image_data then
      match e.model image_data with
      | .ok t => .ok (capAndDefault altFallback t, ⟨1, 0⟩)
      | .error _ => .error ⟨1, 0⟩
    else .error ⟨0, 0⟩

/-- `generate_alt_text(image_data)`. -/
def generate_alt_text (e : Env) (image_data : List Nat) : String × Trace :=
  match generate_alt_text_body e image_data with
  | .ok r => r
  | .error tr => (altFallback, tr)

/-- `generate_alt_text` as a possibly-raising computation. -/
def generate_alt_textE (e : Env) (image_data : List Nat) :
    Except Trace (String × Trace) :=
  match generate_alt_text_body e image_data with
  | .ok r => .ok r
  | .error tr => .ok (altFallback, tr)

/-- Body of the `try` block of `generate_alt_text_from_file`: open and read
the file, then delegate to `generate_alt_text` (which itself never raises). -/
def generate_alt_text_from_file_body (e : Env) (file_path : String) :
    Except Trace (String × Trace) :=
  match e.fs file_path with
  | none => .error ⟨0, 1⟩
  | some image_data =>
    let r := generate_alt_text e image_data
    .ok (r.1, ⟨r.2.modelCalls, r.2.fileOpens + 1⟩)

/-- `generate_alt_text_from_file(file_path)`. -/
def generate_alt_text_from_file (e : Env) (file_path : String) :
    String × Trace :=
  match generate_alt_text_from_file_body e file_path with
  | .ok r => r
  | .error tr => (altFallback, tr)

/-- `generate_alt_text_from_file` as a possibly-raising computation. -/
def generate_alt_text_from_fileE (e : Env) (file_path : String) :
    Except Trace (String × Trace) :=
  match generate_alt_text_from_file_body e file_path with
  | .ok r => .ok r
  | .error tr => .ok (altFallback, tr)

/-- Body of the `try` block of `generate_sassy_description_from_file`:
credential check first, then file read, decode, model call, post-process. -/
def generate_sassy_description_from_file_body (e : Env) (file_path : String) :
    Except Trace (String × Trace) :=
  match getGeminiClient e with
  | none => .ok (sassyFallback, ⟨0, 0⟩)
  | some _ =>
    match e.fs file_path with
    | none => .error ⟨0, 1⟩
    | some image_data =>
      if e.decodes image_data then
        match e.model image_data with
        | .ok t => .ok (capAndDefault sassyFallback t, ⟨1, 1⟩)
        | .error _ => .error ⟨1, 1⟩
      else .error ⟨0, 1⟩

/-- `generate_sassy_description_from_file(file_path)`. -/
def generate_sassy_description_from_file (e : Env) (file_path : String) :
    String × Trace :=
  match generate_sassy_description_from_file_body e file_path with
  | .ok r => r
  | .error tr => (sassyFallback, tr)

/-- `generate_sassy_description_from_file` as a possibly-raising
computation. -/
def generate_sassy_description_from_fileE (e : Env) (file_path : String) :
    Except Trace (String × Trace) :=
  match generate_sassy_description_from_file_body e file_path with
  | .ok r => .ok r
  | .error tr => .ok (sassyFallback, tr)

/-- The default/fallback alt-text test of `check_photos.py` (lines 69–73):
the alt text is truthy (non-empty) and equal to one of the three sentinel
strings. -/
def is_default_alt_text (alt : String) : Bool :=
  alt != "" &&
    (alt == "empty-alt-text" ||
     alt == "Image description not available" ||
     alt == "Photo uploaded by user")

/-- An environment identical to `e` but with the credential removed. -/
def noKey (e : Env) : Env := { e with apiKey := none }

end LlmService
namespace LlmService

theorem take497_append_length (t : String) (h : 500 < t.length) :
    (String.mk (t.data.take 497) ++ "...").length = 500 := by
  rw [String.length_append]
  have h1 : (String.mk (t.data.take 497)).length = 497 := by
    show (t.data.take 497).length = 497
    rw [List.length_take]
    have h2 : 500 < t.data.length := h
    omega
  rw [h1]
  rfl

theorem capAndDefault_of_long (fb raw : String) (h : 500 < (pyStrip raw).length) :
    capAndDefault fb raw = String.mk ((pyStrip raw).data.take 497) ++ "..." := by
  have hne : ¬ (String.mk ((pyStrip raw).data.take 497) ++ "..." = "") := by
    intro hcon
    have hl := congrArg String.length hcon
    rw [take497_append_length (pyStrip raw) h] at hl
    simp at hl
  unfold capAndDefault
  simp only [h, if_pos, gt_iff_lt]
  rw [if_neg hne]

theorem string_ne_empty_of_length_pos (t : String) (h : t ≠ "") : 1 ≤ t.length := by
  rcases t with ⟨l⟩
  rcases l with _ | ⟨c, l⟩
  · exact absurd rfl h
  · show 1 ≤ (c :: l).length
    simp

theorem capAndDefault_of_short (fb raw : String) (h1 : (pyStrip raw).length ≤ 500)
    (h2 : pyStrip raw ≠ "") : capAndDefault fb raw = pyStrip raw := by
  have hn : ¬ ((pyStrip raw).length > 500) := by omega
  simp only [capAndDefault]
  rw [if_neg hn, if_neg h2]

theorem capAndDefault_of_stripEmpty (fb raw : String) (h : pyStrip raw = "") :
    capAndDefault fb raw = fb := by
  simp only [capAndDefault]
  rw [h]
  rfl

theorem pyStrip_of_all_space (t : String) (h : t.data.all isPySpace = true) :
    pyStrip t = "" := by
  unfold pyStrip
  have h1 : t.data.dropWhile isPySpace = [] := by
    rw [List.dropWhile_eq_nil_iff]
    intro x hx
    exact (List.all_eq_true.mp h) x hx
  rw [h1]
  rfl

theorem capAndDefault_length (fb raw : String) (h1 : 1 ≤ fb.length)
    (h2 : fb.length ≤ 500) :
    1 ≤ (capAndDefault fb raw).length ∧ (capAndDefault fb raw).length ≤ 500 := by
  by_cases hl : 500 < (pyStrip raw).length
  · rw [capAndDefault_of_long fb raw hl, take497_append_length (pyStrip raw) hl]
    omega
  · by_cases he : pyStrip raw = ""
    · rw [capAndDefault_of_stripEmpty fb raw he]
      omega
    · rw [capAndDefault_of_short fb raw (by omega) he]
      have := string_ne_empty_of_length_pos (pyStrip raw) he
      omega

end LlmService
namespace LlmService

theorem getGeminiClient_of_keyMissing (e : Env) (h : keyMissing e = true) :
    getGeminiClient e = none := by
  unfold getGeminiClient
  rw [h]
  rfl

theorem keyMissing_noKey (e : Env) : keyMissing (noKey e) = true := rfl

theorem get_llm_response_of_noClient (e : Env) (b : List Nat)
    (h : getGeminiClient e = none) : get_llm_response e b = ("", ⟨0, 0⟩) := by
  unfold get_llm_response get_llm_response_body
  rw [h]

theorem generate_alt_text_of_noClient (e : Env) (b : List Nat)
    (h : getGeminiClient e = none) :
    generate_alt_text e b = (altFallback, ⟨0, 0⟩) := by
  unfold generate_alt_text generate_alt_text_body
  rw [h]

theorem generate_sassy_of_noClient (e : Env) (p : String)
    (h : getGeminiClient e = none) :
    generate_sassy_description_from_file e p = (sassyFallback, ⟨0, 0⟩) := by
  unfold generate_sassy_description_from_file
    generate_sassy_description_from_file_body
  rw [h]

theorem generate_alt_text_from_file_of_read (e : Env) (p : String)
    (b : List Nat) (h : e.fs p = some b) :
    generate_alt_text_from_file e p =
      ((generate_alt_text e b).1,
        ⟨(generate_alt_text e b).2.modelCalls,
         (generate_alt_text e b).2.fileOpens + 1⟩) := by
  unfold generate_alt_text_from_file generate_alt_text_from_file_body
  rw [h]

theorem generate_alt_text_from_file_of_noFile (e : Env) (p : String)
    (h : e.fs p = none) :
    generate_alt_text_from_file e p = (altFallback, ⟨0, 1⟩) := by
  unfold generate_alt_text_from_file generate_alt_text_from_file_body
  rw [h]

theorem generate_alt_text_from_file_of_noClient (e : Env) (p : String)
    (h : getGeminiClient e = none) :
    (generate_alt_text_from_file e p).1 = altFallback ∧
    (generate_alt_text_from_file e p).2.modelCalls = 0 := by
  cases hf : e.fs p with
  | none => rw [generate_alt_text_from_file_of_noFile e p hf]; exact ⟨rfl, rfl⟩
  | some bs =>
      rw [generate_alt_text_from_file_of_read e p bs hf,
        generate_alt_text_of_noClient e bs h]
      exact ⟨rfl, rfl⟩

theorem get_llm_response_of_model_ok (e : Env) (b : List Nat) (t : String)
    (hc : getGeminiClient e = some ()) (hd : e.decodes b = true)
    (hm : e.model b = .ok t) :
    get_llm_response e b = (pyStrip t, ⟨1, 0⟩) := by
  unfold get_llm_response get_llm_response_body
  simp only [hc, hd, hm]
  rfl

theorem generate_alt_text_of_model_ok (e : Env) (b : List Nat) (t : String)
    (hc : getGeminiClient e = some ()) (hd : e.decodes b = true)
    (hm : e.model b = .ok t) :
    generate_alt_text e b = (capAndDefault altFallback t, ⟨1, 0⟩) := by
  unfold generate_alt_text generate_alt_text_body
  simp only [hc, hd, hm]
  rfl

theorem generate_sassy_of_model_ok (e : Env) (p : String) (b : List Nat)
    (t : String) (hc : getGeminiClient e = some ()) (hf : e.fs p = some b)
    (hd : e.decodes b = true) (hm : e.model b = .ok t) :
    generate_sassy_description_from_file e p =
      (capAndDefault sassyFallback t, ⟨1, 1⟩) := by
  unfold generate_sassy_description_from_file
    generate_sassy_description_from_file_body
  simp only [hc, hf, hd, hm]
  rfl

theorem get_llm_response_of_body_error (e : Env) (b : List Nat) (tr : Trace)
    (h : get_llm_response_body e b = .error tr) :
    get_llm_response e b = ("", tr) := by
  unfold get_llm_response
  rw [h]

theorem generate_alt_text_of_body_error (e : Env) (b : List Nat) (tr : Trace)
    (h : generate_alt_text_body e b = .error tr) :
    generate_alt_text e b = (altFallback, tr) := by
  unfold generate_alt_text
  rw [h]

theorem generate_alt_text_from_file_of_body_error (e : Env) (p : String)
    (tr : Trace) (h : generate_alt_text_from_file_body e p = .error tr) :
    generate_alt_text_from_file e p = (altFallback, tr) := by
  unfold generate_alt_text_from_file
  rw [h]

theorem generate_sassy_of_body_error (e : Env) (p : String) (tr : Trace)
    (h : generate_sassy_description_from_file_body e p = .error tr) :
    generate_sassy_description_from_file e p = (sassyFallback, tr) := by
  unfold generate_sassy_description_from_file
  rw [h]

theorem generate_alt_text_fst_cases (e : Env) (b : List Nat) :
    (generate_alt_text e b).1 = altFallback ∨
    ∃ t, (generate_alt_text e b).1 = capAndDefault altFallback t := by
  cases hc : getGeminiClient e with
  | none => left; rw [generate_alt_text_of_noClient e b hc]
  | some u =>
    cases hd : e.decodes b with
    | true =>
      cases hm : e.model b with
      | error u =>
        left
        have hb : generate_alt_text_body e b = .error ⟨1, 0⟩ := by
          unfold generate_alt_text_body
          simp only [hc, hd, hm]
          rfl
        rw [generate_alt_text_of_body_error e b _ hb]
      | ok t =>
        right
        obtain ⟨⟩ := u
        rw [generate_alt_text_of_model_ok e b t hc hd hm]
        exact ⟨t, rfl⟩
    | false =>
      left
      have hb : generate_alt_text_body e b = .error ⟨0, 0⟩ := by
        unfold generate_alt_text_body
        simp only [hc, hd]
        rfl
      rw [generate_alt_text_of_body_error e b _ hb]

theorem generate_sassy_fst_cases (e : Env) (p : String) :
    (generate_sassy_description_from_file e p).1 = sassyFallback ∨
    ∃ t, (generate_sassy_description_from_file e p).1 =
      capAndDefault sassyFallback t := by
  cases hc : getGeminiClient e with
  | none => left; rw [generate_sassy_of_noClient e p hc]
  | some u =>
    obtain ⟨⟩ := u
    cases hf : e.fs p with
    | none =>
      left
      have hb : generate_sassy_description_from_file_body e p = .error ⟨0, 1⟩ := by
        unfold generate_sassy_description_from_file_body
        rw [hc, hf]
      rw [generate_sassy_of_body_error e p _ hb]
    | some bs =>
      cases hd : e.decodes bs with
      | true =>
        cases hm : e.model bs with
        | error u =>
          left
          have hb : generate_sassy_description_from_file_body e p = .error ⟨1, 1⟩ := by
            unfold generate_sassy_description_from_file_body
            simp only [hc, hf, hd, hm]
            rfl
          rw [generate_sassy_of_body_error e p _ hb]
        | ok t =>
          right
          rw [generate_sassy_of_model_ok e p bs t hc hf hd hm]
          exact ⟨t, rfl⟩
      | false =>
        left
        have hb : generate_sassy_description_from_file_body e p = .error ⟨0, 1⟩ := by
          unfold generate_sassy_description_from_file_body
          simp only [hc, hf, hd]
          rfl
        rw [generate_sassy_of_body_error e p _ hb]

end LlmService

namespace LlmService

/-- Environment with no `GEMINI_API_KEY` configured; everything else healthy. -/
def envNoKey : Env :=
  ⟨none, true, fun _ => true, fun _ => .ok "x", fun _ => some []⟩

/-- Healthy environment whose model replies with a whitespace-only string. -/
def envWhitespace : Env :=
  ⟨some "k", true, fun _ => true, fun _ => .ok "   ", fun _ => some []⟩

/-- A 501-character model reply. -/
def longReply : String := String.mk (List.replicate 501 'a')

/-- Healthy environment whose model replies with 501 characters. -/
def envLong : Env :=
  ⟨some "k", true, fun _ => true, fun _ => .ok longReply, fun _ => some []⟩

/-- Healthy environment whose model replies `"A red square image"`. -/
def envRedSquare : Env :=
  ⟨some "k", true, fun _ => true, fun _ => .ok "A red square image",
    fun _ => some []⟩

/-- Environment with a key but where image decoding, the model call and
every file read fail. -/
def envAllFail : Env :=
  ⟨some "k", true, fun _ => false, fun _ => .error (), fun _ => none⟩

/-- Environment with a key and a working model but no readable file. -/
def envNoFile : Env :=
  ⟨some "k", true, fun _ => true, fun _ => .ok "x", fun _ => none⟩

end LlmService

namespace LlmService

theorem generate_alt_text_fst_of_model_ok (e : Env) (b : List Nat)
    (t : String) (hc : getGeminiClient e = some ()) (hd : e.decodes b = true)
    (hm : e.model b = .ok t) :
    (generate_alt_text e b).1 = capAndDefault altFallback t := by
  rw [generate_alt_text_of_model_ok e b t hc hd hm]

theorem generate_sassy_fst_of_model_ok (e : Env) (p : String) (b : List Nat)
    (t : String) (hc : getGeminiClient e = some ()) (hf : e.fs p = some b)
    (hd : e.decodes b = true) (hm : e.model b = .ok t) :
    (generate_sassy_description_from_file e p).1 =
      capAndDefault sassyFallback t := by
  rw [generate_sassy_of_model_ok e p b t hc hf hd hm]

/-- C1: the claim asserts that every operation, `get_llm_response` included,
returns between 1 and 500 characters.  `get_llm_response` violates the lower
bound: with no credential configured it returns the empty string. -/
theorem C1_counterexample :
    ¬ 1 ≤ (get_llm_response envNoKey []).1.length := by decide

/-- C1 (amended): `generate_alt_text`, `generate_alt_text_from_file` and
`generate_sassy_description_from_file` always return a string of length at
least 1 and at most 500, under every environment, input and failure mode;
`get_llm_response` is excluded (it may return the empty string). -/
theorem C1_length_bounds (e : Env) (b : List Nat) (p : String) :
    (1 ≤ (generate_alt_text e b).1.length ∧
      (generate_alt_text e b).1.length ≤ 500) ∧
    (1 ≤ (generate_alt_text_from_file e p).1.length ∧
      (generate_alt_text_from_file e p).1.length ≤ 500) ∧
    (1 ≤ (generate_sassy_description_from_file e p).1.length ∧
      (generate_sassy_description_from_file e p).1.length ≤ 500) := by
  have halt : ∀ bs, 1 ≤ (generate_alt_text e bs).1.length ∧
      (generate_alt_text e bs).1.length ≤ 500 := by
    intro bs
    rcases generate_alt_text_fst_cases e bs with h | ⟨t, h⟩
    · rw [h]; exact ⟨by decide, by decide⟩
    · rw [h]; exact capAndDefault_length altFallback t (by decide) (by decide)
  refine ⟨halt b, ?_, ?_⟩
  · cases hf : e.fs p with
    | none =>
      rw [generate_alt_text_from_file_of_noFile e p hf]
      exact ⟨by decide, by decide⟩
    | some bs =>
      rw [generate_alt_text_from_file_of_read e p bs hf]
      exact halt bs
  · rcases generate_sassy_fst_cases e p with h | ⟨t, h⟩
    · rw [h]; exact ⟨by decide, by decide⟩
    · rw [h]; exact capAndDefault_length sassyFallback t (by decide) (by decide)

/-- C2: the claim asserts that trimmed model text of length at most 500 is
returned unchanged; a whitespace-only model reply trims to the empty string
(length 0 ≤ 500) yet the operation returns the fallback instead. -/
theorem C2_counterexample :
    envWhitespace.model [] = .ok "   " ∧ (pyStrip "   ").length ≤ 500 ∧
    (generate_alt_text envWhitespace []).1 ≠ pyStrip "   " := by
  refine ⟨rfl, by decide, by decide⟩

/-- C2 (amended): when the model call succeeds, trimmed text longer than 500
characters is truncated to its first 497 characters plus `"..."` (total
length exactly 500) in both `generate_alt_text` and
`generate_sassy_description_from_file`; trimmed text of length between 1 and
500 is returned unchanged. -/
theorem C2_truncation (e : Env) (b : List Nat) (p : String) (t : String)
    (hc : getGeminiClient e = some ()) (hd : e.decodes b = true)
    (hm : e.model b = .ok t) (hf : e.fs p = some b) :
    (500 < (pyStrip t).length →
      (generate_alt_text e b).1 =
        String.mk ((pyStrip t).data.take 497) ++ "..." ∧
      (generate_alt_text e b).1.length = 500 ∧
      (generate_sassy_description_from_file e p).1 =
        String.mk ((pyStrip t).data.take 497) ++ "..." ∧
      (generate_sassy_description_from_file e p).1.length = 500) ∧
    (1 ≤ (pyStrip t).length → (pyStrip t).length ≤ 500 →
      (generate_alt_text e b).1 = pyStrip t ∧
      (generate_sassy_description_from_file e p).1 = pyStrip t) := by
  have ha := generate_alt_text_fst_of_model_ok e b t hc hd hm
  have hs := generate_sassy_fst_of_model_ok e p b t hc hf hd hm
  constructor
  · intro hl
    rw [ha, hs, capAndDefault_of_long altFallback t hl,
      capAndDefault_of_long sassyFallback t hl]
    have hlen := take497_append_length (pyStrip t) hl
    exact ⟨rfl, hlen, rfl, hlen⟩
  · intro h1 h2
    have hne : pyStrip t ≠ "" := by
      intro hcon
      rw [hcon] at h1
      exact absurd h1 (by decide)
    rw [ha, hs, capAndDefault_of_short altFallback t h2 hne,
      capAndDefault_of_short sassyFallback t h2 hne]
    exact ⟨rfl, rfl⟩

set_option maxRecDepth 4000 in
theorem C2_truncation_witness :
    (generate_alt_text envLong []).1.length = 500 ∧
    (generate_alt_text envRedSquare []).1 = pyStrip "A red square image" := by
  constructor
  · exact ((C2_truncation envLong [] "p" longReply rfl rfl rfl rfl).1
      (by decide)).2.1
  · exact ((C2_truncation envRedSquare [] "p" "A red square image"
      rfl rfl rfl rfl).2 (by decide) (by decide)).1

/-- C3: with no credential configured, every operation returns its
documented fallback string and makes zero calls to the model transport. -/
theorem C3_no_credential (e : Env) (b : List Nat) (p : String)
    (h : keyMissing e = true) :
    get_llm_response e b = ("", ⟨0, 0⟩) ∧
    generate_alt_text e b = (altFallback, ⟨0, 0⟩) ∧
    ((generate_alt_text_from_file e p).1 = altFallback ∧
      (generate_alt_text_from_file e p).2.modelCalls = 0) ∧
    generate_sassy_description_from_file e p = (sassyFallback, ⟨0, 0⟩) := by
  have hc := getGeminiClient_of_keyMissing e h
  exact ⟨get_llm_response_of_noClient e b hc,
    generate_alt_text_of_noClient e b hc,
    generate_alt_text_from_file_of_noClient e p hc,
    generate_sassy_of_noClient e p hc⟩

theorem C3_no_credential_witness :
    get_llm_response envNoKey [] = ("", ⟨0, 0⟩) ∧
    generate_alt_text envNoKey [] = (altFallback, ⟨0, 0⟩) ∧
    ((generate_alt_text_from_file envNoKey "p").1 = altFallback ∧
      (generate_alt_text_from_file envNoKey "p").2.modelCalls = 0) ∧
    generate_sassy_description_from_file envNoKey "p" =
      (sassyFallback, ⟨0, 0⟩) :=
  C3_no_credential envNoKey [] "p" rfl

end LlmService

namespace LlmService

theorem get_llm_responseE_ok (e : Env) (b : List Nat) :
    ∃ r, get_llm_responseE e b = .ok r := by
  unfold get_llm_responseE
  cases get_llm_response_body e b with
  | ok r => exact ⟨r, rfl⟩
  | error tr => exact ⟨("", tr), rfl⟩

theorem generate_alt_textE_ok (e : Env) (b : List Nat) :
    ∃ r, generate_alt_textE e b = .ok r := by
  unfold generate_alt_textE
  cases generate_alt_text_body e b with
  | ok r => exact ⟨r, rfl⟩
  | error tr => exact ⟨(altFallback, tr), rfl⟩

theorem generate_alt_text_from_fileE_ok (e : Env) (p : String) :
    ∃ r, generate_alt_text_from_fileE e p = .ok r := by
  unfold generate_alt_text_from_fileE
  cases generate_alt_text_from_file_body e p with
  | ok r => exact ⟨r, rfl⟩
  | error tr => exact ⟨(altFallback, tr), rfl⟩

theorem generate_sassy_fileE_ok (e : Env) (p : String) :
    ∃ r, generate_sassy_description_from_fileE e p = .ok r := by
  unfold generate_sassy_description_from_fileE
  cases generate_sassy_description_from_file_body e p with
  | ok r => exact ⟨r, rfl⟩
  | error tr => exact ⟨(sassyFallback, tr), rfl⟩

/-- C4: no operation propagates an exception: viewed as possibly-raising
computations, all four operations return normally (an `Except.ok` result,
which is in particular a string) for every environment and input. -/
theorem C4_no_exception (e : Env) (b : List Nat) (p : String) :
    (∃ r, get_llm_responseE e b = .ok r) ∧
    (∃ r, generate_alt_textE e b = .ok r) ∧
    (∃ r, generate_alt_text_from_fileE e p = .ok r) ∧
    (∃ r, generate_sassy_description_from_fileE e p = .ok r) :=
  ⟨get_llm_responseE_ok e b, generate_alt_textE_ok e b,
    generate_alt_text_from_fileE_ok e p, generate_sassy_fileE_ok e p⟩

/-- C5: whenever the body of an operation (everything inside its `try`
block, after the credential check) raises, the operation returns the same
string it returns in the no-credential case. -/
theorem C5_error_to_fallback (e : Env) (b : List Nat) (p : String) :
    (∀ tr, get_llm_response_body e b = .error tr →
      (get_llm_response e b).1 = (get_llm_response (noKey e) b).1) ∧
    (∀ tr, generate_alt_text_body e b = .error tr →
      (generate_alt_text e b).1 = (generate_alt_text (noKey e) b).1) ∧
    (∀ tr, generate_alt_text_from_file_body e p = .error tr →
      (generate_alt_text_from_file e p).1 =
        (generate_alt_text_from_file (noKey e) p).1) ∧
    (∀ tr, generate_sassy_description_from_file_body e p = .error tr →
      (generate_sassy_description_from_file e p).1 =
        (generate_sassy_description_from_file (noKey e) p).1) := by
  have hc := getGeminiClient_of_keyMissing (noKey e) (keyMissing_noKey e)
  refine ⟨?_, ?_, ?_, ?_⟩
  · intro tr h
    rw [get_llm_response_of_body_error e b tr h,
      get_llm_response_of_noClient (noKey e) b hc]
  · intro tr h
    rw [generate_alt_text_of_body_error e b tr h,
      generate_alt_text_of_noClient (noKey e) b hc]
  · intro tr h
    rw [generate_alt_text_from_file_of_body_error e p tr h,
      (generate_alt_text_from_file_of_noClient (noKey e) p hc).1]
  · intro tr h
    rw [generate_sassy_of_body_error e p tr h,
      generate_sassy_of_noClient (noKey e) p hc]

theorem C5_error_to_fallback_witness :
    (get_llm_response envAllFail []).1 =
      (get_llm_response (noKey envAllFail) []).1 ∧
    (generate_alt_text envAllFail []).1 =
      (generate_alt_text (noKey envAllFail) []).1 ∧
    (generate_alt_text_from_file envAllFail "p").1 =
      (generate_alt_text_from_file (noKey envAllFail) "p").1 ∧
    (generate_sassy_description_from_file envAllFail "p").1 =
      (generate_sassy_description_from_file (noKey envAllFail) "p").1 := by
  refine ⟨?_, ?_, ?_, ?_⟩
  · exact (C5_error_to_fallback envAllFail [] "p").1 ⟨0, 0⟩ rfl
  · exact (C5_error_to_fallback envAllFail [] "p").2.1 ⟨0, 0⟩ rfl
  · exact (C5_error_to_fallback envAllFail [] "p").2.2.1 ⟨0, 1⟩ rfl
  · exact (C5_error_to_fallback envAllFail [] "p").2.2.2 ⟨0, 1⟩ rfl

/-- C6: a model reply that is empty or consists only of whitespace yields
the documented per-operation fallback. -/
theorem C6_whitespace_to_fallback (e : Env) (b : List Nat) (p : String)
    (t : String) (hc : getGeminiClient e = some ()) (hd : e.decodes b = true)
    (hm : e.model b = .ok t) (hw : t.data.all isPySpace = true)
    (hf : e.fs p = some b) :
    (get_llm_response e b).1 = "" ∧
    (generate_alt_text e b).1 = altFallback ∧
    (generate_alt_text_from_file e p).1 = altFallback ∧
    (generate_sassy_description_from_file e p).1 = sassyFallback := by
  have hs := pyStrip_of_all_space t hw
  have h1 : (generate_alt_text e b).1 = altFallback := by
    rw [generate_alt_text_fst_of_model_ok e b t hc hd hm,
      capAndDefault_of_stripEmpty altFallback t hs]
  refine ⟨?_, h1, ?_, ?_⟩
  · rw [get_llm_response_of_model_ok e b t hc hd hm]
    exact hs
  · rw [generate_alt_text_from_file_of_read e p b hf]
    exact h1
  · rw [generate_sassy_fst_of_model_ok e p b t hc hf hd hm,
      capAndDefault_of_stripEmpty sassyFallback t hs]

theorem C6_whitespace_to_fallback_witness :
    (get_llm_response envWhitespace []).1 = "" ∧
    (generate_alt_text envWhitespace []).1 = altFallback ∧
    (generate_alt_text_from_file envWhitespace "p").1 = altFallback ∧
    (generate_sassy_description_from_file envWhitespace "p").1 =
      sassyFallback :=
  C6_whitespace_to_fallback envWhitespace [] "p" "   " rfl rfl rfl
    (by decide) rfl

theorem generate_sassy_of_noFile (e : Env) (p : String) (h : e.fs p = none) :
    (generate_sassy_description_from_file e p).1 = sassyFallback ∧
    (generate_sassy_description_from_file e p).2.modelCalls = 0 := by
  cases hc : getGeminiClient e with
  | none => rw [generate_sassy_of_noClient e p hc]; exact ⟨rfl, rfl⟩
  | some u =>
    obtain ⟨⟩ := u
    have hb : generate_sassy_description_from_file_body e p =
        .error ⟨0, 1⟩ := by
      unfold generate_sassy_description_from_file_body
      rw [hc, h]
    rw [generate_sassy_of_body_error e p _ hb]
    exact ⟨rfl, rfl⟩

/-- C7: on a path that cannot be opened or read, both path-based operations
return the fallback of their in-memory/no-credential counterpart, without
raising and without calling the model. -/
theorem C7_unreadable_path (e : Env) (p : String) (h : e.fs p = none) :
    (generate_alt_text_from_file e p).1 = altFallback ∧
    (generate_alt_text_from_file e p).2.modelCalls = 0 ∧
    (∃ r, generate_alt_text_from_fileE e p = .ok r) ∧
    (generate_sassy_description_from_file e p).1 = sassyFallback ∧
    (generate_sassy_description_from_file e p).2.modelCalls = 0 ∧
    (∃ r, generate_sassy_description_from_fileE e p = .ok r) := by
  have h1 := generate_alt_text_from_file_of_noFile e p h
  have h2 := generate_sassy_of_noFile e p h
  exact ⟨by rw [h1], by rw [h1], generate_alt_text_from_fileE_ok e p,
    h2.1, h2.2, generate_sassy_fileE_ok e p⟩

theorem C7_unreadable_path_witness :
    (generate_alt_text_from_file envNoFile "p").1 = altFallback ∧
    (generate_alt_text_from_file envNoFile "p").2.modelCalls = 0 ∧
    (∃ r, generate_alt_text_from_fileE envNoFile "p" = .ok r) ∧
    (generate_sassy_description_from_file envNoFile "p").1 = sassyFallback ∧
    (generate_sassy_description_from_file envNoFile "p").2.modelCalls = 0 ∧
    (∃ r, generate_sassy_description_from_fileE envNoFile "p" = .ok r) :=
  C7_unreadable_path envNoFile "p" rfl

/-- C8: when the file at the path reads to bytes `b`, the path-based
alt-text operation returns exactly the string of the in-memory operation
applied to `b`. -/
theorem C8_path_delegates (e : Env) (p : String) (b : List Nat)
    (h : e.fs p = some b) :
    (generate_alt_text_from_file e p).1 = (generate_alt_text e b).1 := by
  rw [generate_alt_text_from_file_of_read e p b h]

theorem C8_path_delegates_witness :
    (generate_alt_text_from_file envRedSquare "p").1 =
      (generate_alt_text envRedSquare []).1 :=
  C8_path_delegates envRedSquare "p" [] rfl

/-- C9: the claim asserts every fallback output is in the sentinel set of
`check_photos`; the sassy fallback is not recognized by that set. -/
theorem C9_counterexample :
    (generate_sassy_description_from_file envNoKey "p").1 = sassyFallback ∧
    is_default_alt_text
      (generate_sassy_description_from_file envNoKey "p").1 = false := by
  decide

/-- C9 (amended): of the operations' fallback outputs, the alt-text
fallback `"Image description not available"` is recognized as a sentinel by
`check_photos`; the raw fallback (the empty string) and the sassy fallback
are not. -/
theorem C9_sentinel_membership (e : Env) (b : List Nat) (p : String)
    (h : keyMissing e = true) :
    is_default_alt_text (generate_alt_text e b).1 = true ∧
    is_default_alt_text (generate_alt_text_from_file e p).1 = true ∧
    is_default_alt_text (get_llm_response e b).1 = false ∧
    is_default_alt_text (generate_sassy_description_from_file e p).1 =
      false := by
  have hc := getGeminiClient_of_keyMissing e h
  rw [get_llm_response_of_noClient e b hc,
    generate_alt_text_of_noClient e b hc,
    (generate_alt_text_from_file_of_noClient e p hc).1,
    generate_sassy_of_noClient e p hc]
  exact ⟨by decide, by decide, by decide, by decide⟩

theorem C9_sentinel_membership_witness :
    is_default_alt_text (generate_alt_text envNoKey []).1 = true ∧
    is_default_alt_text (generate_alt_text_from_file envNoKey "p").1 = true ∧
    is_default_alt_text (get_llm_response envNoKey []).1 = false ∧
    is_default_alt_text
      (generate_sassy_description_from_file envNoKey "p").1 = false :=
  C9_sentinel_membership envNoKey [] "p" rfl

/-- C10: `generate_sassy_description_from_file` checks the credential
before touching the file system: with no key configured it returns the
sassy fallback with a trace of zero model calls and zero file opens. -/
theorem C10_credential_before_file (e : Env) (p : String)
    (h : keyMissing e = true) :
    generate_sassy_description_from_file e p = (sassyFallback, ⟨0, 0⟩) ∧
    (generate_sassy_description_from_file e p).2.fileOpens = 0 := by
  have h1 := generate_sassy_of_noClient e p (getGeminiClient_of_keyMissing e h)
  exact ⟨h1, by rw [h1]⟩

theorem C10_credential_before_file_witness :
    generate_sassy_description_from_file envNoKey "p" =
      (sassyFallback, ⟨0, 0⟩) ∧
    (generate_sassy_description_from_file envNoKey "p").2.fileOpens = 0 :=
  C10_credential_before_file envNoKey "p" rfl

end LlmService
